import Mathlib

/-!
# MovieDec front end (`src/frontend/script.js`)

A shallow embedding of the browser client: the global `state` object, the
`localStorage` key-value store and the parts of the page the script reads and
writes are explicit records, and every handler is a function from the
application before the call to the application after it.  An `async` handler
takes the response its request will receive as an argument and is run to
completion; the requests it issues are appended to a log.

Strings are sequences of UTF-16 code units, as in JavaScript, so `includes`,
`trim`, the default `sort` order and truthiness are the ones of the language.
Markup produced by template literals is kept as structured nodes (a card, a
section) whose fields are the interpolated values.
-/

namespace MovieDec

/-! ## JavaScript strings -/

/-- A JavaScript string, as its sequence of UTF-16 code units. -/
abbrev JSString := List Nat

/-- The UTF-16 code units of one character. -/
def utf16 (c : Char) : List Nat :=
  if c.toNat < 65536 then [c.toNat]
  else [55296 + (c.toNat - 65536) / 1024, 56320 + (c.toNat - 65536) % 1024]

/-- The code units of a list of characters. -/
def units : List Char → JSString
  | [] => []
  | c :: cs => utf16 c ++ units cs

/-- A string literal of the script. -/
def str (s : String) : JSString := units s.toList

/-- The filled heart shown on a liked card (U+2764 U+FE0F). -/
def heartFilled : JSString := [10084, 65039]

/-- The white heart shown on a card that is not liked (U+1F90D, a surrogate pair). -/
def heartEmpty : JSString := [55358, 56589]

/-- Truthiness of a string value: every string but the empty one. -/
def truthy (s : JSString) : Bool := !s.isEmpty

/-- Truthiness of the result of `localStorage.getItem`, or of a property that
may be missing: `null`/`undefined` and the empty string are falsy. -/
def truthyOpt : Option JSString → Bool
  | none => false
  | some s => truthy s

/-- The method `String.prototype.includes`: `t` occurs in `s` at some position. -/
def includes : JSString → JSString → Bool
  | [], t => t.isEmpty
  | c :: cs, t => t.isPrefixOf (c :: cs) || includes cs t

/-- White space and line terminators, the code units `trim` strips. -/
def isWhiteSpace (c : Nat) : Bool :=
  c == 9 || c == 10 || c == 11 || c == 12 || c == 13 || c == 32 || c == 160 ||
  c == 5760 || (8192 ≤ c && c ≤ 8202) || c == 8232 || c == 8233 || c == 8239 ||
  c == 8287 || c == 12288 || c == 65279

/-- The method `String.prototype.trim`. -/
def trim (s : JSString) : JSString :=
  ((s.dropWhile isWhiteSpace).reverse.dropWhile isWhiteSpace).reverse

/-- The default order of `Array.prototype.sort` on strings is the
lexicographic order of their code units; between distinct strings every
sorting algorithm yields the same array, here an insertion sort. -/
def sort (xs : List JSString) : List JSString :=
  xs.insertionSort (· ≤ ·)

/-! ## `Set`, kept as its elements in insertion order -/

section JSSet
variable {α : Type} [DecidableEq α]

/-- `Set.prototype.has`. -/
def setHas (s : List α) (x : α) : Bool := decide (x ∈ s)

/-- `Set.prototype.add`: a new element goes last, a present one stays put. -/
def setAdd (s : List α) (x : α) : List α := if x ∈ s then s else s ++ [x]

/-- `Set.prototype.delete`. -/
def setDelete (s : List α) (x : α) : List α := s.filter (fun y => decide (y ≠ x))

/-- `new Set(array)`: the elements of the array are added one by one. -/
def setFromArray (xs : List α) : List α := xs.foldl setAdd []

end JSSet

/-! ## Data model -/

/-- A movie as the service returns it.  `ratings` is a number the script only
copies into the card; `like_count` is present on recommendations only. -/
structure Movie where
  movie_id : Int
  movie_name : JSString
  genre : JSString
  ratings : Int
  like_count : Option Int
deriving DecidableEq, Repr

/-- The global `state` object. -/
structure State where
  isAuthenticated : Bool
  currentUser : Option JSString
  token : Option JSString
  allMovies : List Movie
  likedMovies : List Int
  currentView : JSString
  theme : JSString
deriving DecidableEq, Repr

/-- The value `state` is initialised with when the script is loaded. -/
def initialState : State :=
  { isAuthenticated := false, currentUser := none, token := none, allMovies := [],
    likedMovies := [], currentView := str "all-movies", theme := str "dark" }

/-- The `localStorage` area: keys with their string values. -/
abbrev Store := List (JSString × JSString)

/-- `localStorage.getItem`: the value, or `null` when the key is absent. -/
def getItem (s : Store) (k : JSString) : Option JSString :=
  (s.find? (fun kv => kv.1 == k)).map Prod.snd

/-- `localStorage.removeItem`. -/
def removeItem (s : Store) (k : JSString) : Store :=
  s.filter (fun kv => !(kv.1 == k))

/-- `localStorage.setItem`. -/
def setItem (s : Store) (k v : JSString) : Store :=
  if (getItem s k).isSome then s.map (fun kv => if kv.1 == k then (k, v) else kv)
  else s ++ [(k, v)]

/-- The like button of a card: whether its class list holds `liked`, its
`data-movie-id`, its text and the number of click listeners bound to it. -/
structure LikeBtn where
  liked : Bool
  movieId : Int
  text : JSString
  clickListeners : Nat
deriving DecidableEq, Repr

/-- The markup of a movie card, by the values interpolated into it. -/
structure Card where
  title : JSString
  genre : JSString
  rating : Int
  likeCount : Option Int
  btn : LikeBtn
deriving DecidableEq, Repr

/-- A child of the recommendations container. -/
inductive RecNode where
  | emptyState (heading text : JSString)
  | recSection (heading : JSString) (cards : List Card)
deriving DecidableEq, Repr

/-- A form of the auth view: the current values of its inputs and the values
`reset()` restores. -/
structure AuthForm where
  username : JSString
  password : JSString
  defaultUsername : JSString
  defaultPassword : JSString
deriving DecidableEq, Repr

/-- An `option` element of the genre filter. -/
structure GenreOption where
  value : JSString
  text : JSString
deriving DecidableEq, Repr

/-- The elements of the page the script touches.  A `...Hidden` flag says
whether the element's class list holds `hidden`. -/
structure Dom where
  authViewHidden : Bool
  mainAppHidden : Bool
  loadingHidden : Bool
  userNameDisplay : JSString
  authMessageText : JSString
  authMessageClass : JSString
  toastText : JSString
  toastShown : Bool
  loginForm : AuthForm
  registerForm : AuthForm
  searchInput : JSString
  genreFilterValue : JSString
  genreOptions : List GenreOption
  moviesGrid : List Card
  recommendationsContent : List RecNode
deriving DecidableEq, Repr

/-- A request sent with `fetch`. -/
inductive Request where
  | register (username password : JSString)
  | login (username password : JSString)
  | movies
  | like (user : Option JSString) (movieId : Int)
  | recommendations (movieId : Int)
deriving DecidableEq, Repr

/-- What a `setTimeout` callback of the script does. -/
inductive TimerAction where
  | hideToast
  | switchToLoginTab
deriving DecidableEq, Repr

/-- The outcome of a request as the handler sees it: an exception raised in the
`try` block (the fetch rejects, the body cannot be read), a response whose
`ok` is false with the `detail` of its payload, or a 2xx response with its
parsed payload. -/
inductive Response (β : Type) where
  | threw
  | notOk (detail : Option JSString)
  | ok (body : β)
deriving DecidableEq, Repr

/-- The whole application: script state, persistent store, page, the requests
sent so far and the timers set so far (delay in milliseconds). -/
structure App where
  state : State
  store : Store
  dom : Dom
  requests : List Request
  timers : List (Nat × TimerAction)
deriving DecidableEq, Repr

/-! ## UI functions -/

/-- `showMessage(message, type)`: the inline message area of the auth view. -/
def showMessage (a : App) (message type : JSString) : App :=
  { a with dom := { a.dom with authMessageText := message,
                               authMessageClass := str "message " ++ type } }

/-- `showLoading()`: the busy indicator loses the class `hidden`. -/
def showLoading (a : App) : App :=
  { a with dom := { a.dom with loadingHidden := false } }

/-- `hideLoading()`. -/
def hideLoading (a : App) : App :=
  { a with dom := { a.dom with loadingHidden := true } }

/-- `showToast(message)`: the toast gets the text and the class `show`, and
a timer is set that removes the class after three seconds. -/
def showToast (a : App) (message : JSString) : App :=
  { a with dom := { a.dom with toastText := message, toastShown := true },
           timers := a.timers ++ [(3000, TimerAction.hideToast)] }

/-- `showAuthView()`. -/
def showAuthView (a : App) : App :=
  { a with dom := { a.dom with authViewHidden := false, mainAppHidden := true } }

/-- `createMovieCard(movie, isRecommendation)`: the like button is rendered from
membership in `state.likedMovies`; the like-count badge only on a
recommendation with a truthy `like_count`. -/
def createMovieCard (st : State) (movie : Movie) (isRecommendation : Bool) : Card :=
  let isLiked := setHas st.likedMovies movie.movie_id
  { title := movie.movie_name
    genre := movie.genre
    rating := movie.ratings
    likeCount :=
      if isRecommendation then
        match movie.like_count with
        | some n => if n ≠ 0 then some n else none
        | none => none
      else none
    btn := { liked := isLiked, movieId := movie.movie_id,
             text := if isLiked then heartFilled else heartEmpty,
             clickListeners := 0 } }

/-- One more click listener on the like button of a card. -/
def addListener (c : Card) : Card :=
  { c with btn := { c.btn with clickListeners := c.btn.clickListeners + 1 } }

/-- One more click listener on every like button below a node. -/
def RecNode.addListeners : RecNode → RecNode
  | .emptyState h t => .emptyState h t
  | .recSection h cards => .recSection h (cards.map addListener)

/-- `displayMovies(movies)`: the grid is replaced by the cards of `movies`, then
every `.like-btn` of the document gets a click listener. -/
def displayMovies (a : App) (movies : List Movie) : App :=
  { a with dom := { a.dom with
      moviesGrid := (movies.map (fun movie => createMovieCard a.state movie false)).map addListener,
      recommendationsContent := a.dom.recommendationsContent.map RecNode.addListeners } }

/-- The array `genres` of `populateGenreFilter`. -/
def genres (st : State) : List JSString :=
  sort (setFromArray (st.allMovies.map (fun m => m.genre)))

/-- `populateGenreFilter()`: the "All Genres" option, then one option per genre.
Replacing the options leaves the first one selected. -/
def populateGenreFilter (a : App) : App :=
  { a with dom := { a.dom with
      genreOptions := { value := [], text := str "All Genres" } ::
        (genres a.state).map (fun genre => { value := genre, text := genre }),
      genreFilterValue := [] } }

/-- The array `filtered` of `filterMovies`, for the value of the search input
and of the genre filter.  `toLowerCase` is the method of the language. -/
def filtered (toLowerCase : JSString → JSString) (st : State)
    (searchValue selectedGenre : JSString) : List Movie :=
  let searchTerm := toLowerCase searchValue
  st.allMovies.filter (fun movie =>
    let matchesSearch := includes (toLowerCase movie.movie_name) searchTerm
    let matchesGenre := !(truthy selectedGenre) || movie.genre == selectedGenre
    matchesSearch && matchesGenre)

/-- `filterMovies()`. -/
def filterMovies (toLowerCase : JSString → JSString) (a : App) : App :=
  displayMovies a (filtered toLowerCase a.state a.dom.searchInput a.dom.genreFilterValue)

/-- `form.reset()`. -/
def AuthForm.reset (f : AuthForm) : AuthForm :=
  { f with username := f.defaultUsername, password := f.defaultPassword }

/-- `handleLogout()`. -/
def handleLogout (a : App) : App :=
  let a := { a with state := { a.state with isAuthenticated := false, currentUser := none,
                                            token := none, likedMovies := [] } }
  let a := { a with store := removeItem (removeItem a.store (str "username")) (str "access_token") }
  let a := { a with dom := { a.dom with loginForm := a.dom.loginForm.reset,
                                        registerForm := a.dom.registerForm.reset } }
  showToast (showAuthView a) (str "Logged out successfully")

/-! ## Handlers that call the service -/

/-- `loadMovies()`, given the response to `GET /movies`. -/
def loadMovies (a : App) (resp : Response (List Movie)) : App :=
  let a := showLoading a
  let a := { a with requests := a.requests ++ [Request.movies] }
  match resp with
  | .ok movies =>
    let a := { a with state := { a.state with allMovies := movies } }
    let a := populateGenreFilter a
    let a := displayMovies a a.state.allMovies
    hideLoading a
  | .notOk _ => hideLoading (showToast a (str "Failed to load movies"))
  | .threw => showToast (hideLoading a) (str "Network error loading movies")

/-- `showMainApp()`; setting `textContent` to `null` empties the element. -/
def showMainApp (a : App) (resp : Response (List Movie)) : App :=
  let a := { a with dom := { a.dom with authViewHidden := true, mainAppHidden := false,
                                        userNameDisplay := a.state.currentUser.getD [] } }
  loadMovies a resp

/-- `checkAuth()`, given the response to the `GET /movies` it may lead to. -/
def checkAuth (a : App) (resp : Response (List Movie)) : App :=
  let username := getItem a.store (str "username")
  let token := getItem a.store (str "access_token")
  if truthyOpt username && truthyOpt token then
    let a := { a with state := { a.state with isAuthenticated := true, currentUser := username,
                                              token := token } }
    showMainApp a resp
  else
    showAuthView a

/-- `handleRegister(e)`, given the response to `POST /register`. -/
def handleRegister (a : App) (resp : Response Unit) : App :=
  let username := trim a.dom.registerForm.username
  let password := a.dom.registerForm.password
  if !(truthy username) || !(truthy password) then
    showMessage a (str "Please fill in all fields") (str "error")
  else
    let a := showLoading a
    let a := { a with requests := a.requests ++ [Request.register username password] }
    match resp with
    | .ok _ =>
      let a := hideLoading a
      let a := showMessage a (str "Registration successful! Please login.") (str "success")
      { a with timers := a.timers ++ [(1500, TimerAction.switchToLoginTab)] }
    | .notOk detail =>
      let a := hideLoading a
      showMessage a (if truthyOpt detail then detail.getD [] else str "Registration failed")
        (str "error")
    | .threw =>
      showMessage (hideLoading a) (str "Network error. Please try again.") (str "error")

/-- The update `toggleLike` applies to the button it found: the text follows
membership in the liked set, the class `liked` is toggled. -/
def updateHeart (st : State) (movieId : Int) (b : LikeBtn) : LikeBtn :=
  { b with text := if setHas st.likedMovies movieId then heartFilled else heartEmpty,
           liked := !b.liked }

/-- Apply `f` to the button of the first card whose `data-movie-id` is
`movieId`; `none` when no card has it. -/
def updateFirstCard (f : LikeBtn → LikeBtn) (movieId : Int) : List Card → Option (List Card)
  | [] => none
  | c :: cs =>
    if c.btn.movieId = movieId then some ({ c with btn := f c.btn } :: cs)
    else (updateFirstCard f movieId cs).map (fun cs' => c :: cs')

/-- The same search through the sections of the recommendations container. -/
def updateFirstNode (f : LikeBtn → LikeBtn) (movieId : Int) : List RecNode → Option (List RecNode)
  | [] => none
  | .emptyState h t :: ns =>
    (updateFirstNode f movieId ns).map (fun ns' => RecNode.emptyState h t :: ns')
  | .recSection h cards :: ns =>
    match updateFirstCard f movieId cards with
    | some cards' => some (RecNode.recSection h cards' :: ns)
    | none => (updateFirstNode f movieId ns).map (fun ns' => RecNode.recSection h cards :: ns')

/-- The "Update UI" block of `toggleLike`: `document.querySelector` yields the
first element carrying the `data-movie-id`, the movies grid coming before the
recommendations container in the document; nothing happens when there is none. -/
def updateLikeButton (a : App) (movieId : Int) : App :=
  match updateFirstCard (updateHeart a.state movieId) movieId a.dom.moviesGrid with
  | some grid => { a with dom := { a.dom with moviesGrid := grid } }
  | none =>
    match updateFirstNode (updateHeart a.state movieId) movieId a.dom.recommendationsContent with
    | some content => { a with dom := { a.dom with recommendationsContent := content } }
    | none => a

/-- `toggleLike(movieId)`, given the response to `POST /like`; the payload of a
2xx response is its `message`. -/
def toggleLike (a : App) (movieId : Int) (resp : Response JSString) : App :=
  let a := { a with requests := a.requests ++ [Request.like a.state.currentUser movieId] }
  match resp with
  | .threw => showToast a (str "Failed to update like status")
  | .notOk _ => a
  | .ok message =>
    let a :=
      if includes message (str "liked") then
        showToast { a with state := { a.state with
                      likedMovies := setAdd a.state.likedMovies movieId } }
          (str "Movie liked! " ++ heartFilled)
      else
        showToast { a with state := { a.state with
                      likedMovies := setDelete a.state.likedMovies movieId } }
          (str "Movie unliked")
    updateLikeButton a movieId

/-- A run of `toggleLike` calls on one movie, one response per call. -/
def toggleLikes (a : App) (movieId : Int) : List (Response JSString) → App
  | [] => a
  | resp :: rest => toggleLikes (toggleLike a movieId resp) movieId rest

/-- The empty-state markup of the recommendations page. -/
def emptyRecommendations : RecNode :=
  .emptyState (str "No Recommendations Yet")
    (str "Like some movies to get personalized recommendations!")

/-- The section appended for a liked movie with its recommendations. -/
def recommendationSection (st : State) (movie : Movie) (recommendations : List Movie) : RecNode :=
  .recSection (str "Because you liked \"" ++ movie.movie_name ++ str "\"")
    (recommendations.map (fun rec => createMovieCard st rec true))

/-- The `for ... of` loop of `loadRecommendations` over the remaining liked ids.
`fetchRecs` gives the response to `GET /recommendations/id`.  The result is
`error` with the application as it was when a request threw. -/
def recommendationsLoop (fetchRecs : Int → Response (List Movie)) :
    List Int → App → Except App App
  | [], a => .ok a
  | movieId :: rest, a =>
    match a.state.allMovies.find? (fun m => decide (m.movie_id = movieId)) with
    | none => recommendationsLoop fetchRecs rest a
    | some movie =>
      let a := { a with requests := a.requests ++ [Request.recommendations movieId] }
      match fetchRecs movieId with
      | .threw => .error a
      | .notOk _ => recommendationsLoop fetchRecs rest a
      | .ok recommendations =>
        if recommendations.length > 0 then
          recommendationsLoop fetchRecs rest
            { a with dom := { a.dom with recommendationsContent :=
                a.dom.recommendationsContent ++
                  [recommendationSection a.state movie recommendations] } }
        else recommendationsLoop fetchRecs rest a

/-- `loadRecommendations()`. -/
def loadRecommendations (a : App) (fetchRecs : Int → Response (List Movie)) : App :=
  if a.state.likedMovies.length = 0 then
    { a with dom := { a.dom with recommendationsContent := [emptyRecommendations] } }
  else
    let a := showLoading a
    let a := { a with dom := { a.dom with recommendationsContent := [] } }
    match recommendationsLoop fetchRecs a.state.likedMovies a with
    | .ok a => hideLoading a
    | .error a => showToast (hideLoading a) (str "Failed to load recommendations")

/-- Whether `state.allMovies` holds a movie with this id. -/
def inCollection (st : State) (movieId : Int) : Bool :=
  (st.allMovies.find? (fun m => decide (m.movie_id = movieId))).isSome

/-- The section the recommendations page owes a liked id, in the words of the
specification: none when the id is not found in the collection, none when the
response is not 2xx or its list is empty, otherwise the section titled with the
name of the movie found. -/
def expectedSection (st : State) (fetchRecs : Int → Response (List Movie))
    (movieId : Int) : Option RecNode :=
  match st.allMovies.find? (fun m => decide (m.movie_id = movieId)) with
  | none => none
  | some movie =>
    match fetchRecs movieId with
    | .ok recommendations =>
      if recommendations = [] then none
      else some (recommendationSection st movie recommendations)
    | _ => none

/-! ## Sample data -/

/-- A page with nothing shown and empty inputs. -/
def blankDom : Dom :=
  { authViewHidden := true, mainAppHidden := true, loadingHidden := true,
    userNameDisplay := [], authMessageText := [], authMessageClass := str "message",
    toastText := [], toastShown := false,
    loginForm := { username := [], password := [], defaultUsername := [], defaultPassword := [] },
    registerForm := { username := [], password := [], defaultUsername := [], defaultPassword := [] },
    searchInput := [], genreFilterValue := [], genreOptions := [], moviesGrid := [],
    recommendationsContent := [] }

/-- The application right after the script is loaded, over a given store. -/
def freshApp (store : Store) (dom : Dom) : App :=
  { state := initialState, store := store, dom := dom, requests := [], timers := [] }

/-- A store in which both session keys are present, `access_token` with the
empty string as its value (what `handleLogin` stores when the service answers
a login with an empty `access_token`). -/
def emptyTokenStore : Store :=
  [(str "username", str "alice"), (str "access_token", [])]

/-- A store holding the session of alice. -/
def aliceStore : Store :=
  [(str "username", str "alice"), (str "access_token", str "tok1"), (str "theme", str "light")]

/-- An application whose liked set is 42 then 7, over a catalogue that holds
movie 42 and movie 9 but not movie 7. -/
def likedApp : App :=
  let a := freshApp aliceStore blankDom
  { a with state := { a.state with
      allMovies :=
        [{ movie_id := 42, movie_name := str "Heat", genre := str "Crime", ratings := 8,
           like_count := none },
         { movie_id := 9, movie_name := str "Ran", genre := str "Drama", ratings := 8,
           like_count := none }],
      likedMovies := [42, 7, 9] } }

/-- A service that recommends movie 9 for movie 42 and answers every other id
with a non-2xx status. -/
def sampleRecs (movieId : Int) : Response (List Movie) :=
  if movieId = 42 then
    .ok [{ movie_id := 9, movie_name := str "Ran", genre := str "Drama", ratings := 8,
           like_count := some 3 }]
  else .notOk none

/-- A page whose register form holds a username of two blanks and a password. -/
def blankUsernameApp : App :=
  let a := freshApp [] blankDom
  { a with dom := { a.dom with registerForm :=
      { username := str "  ", password := str "pw123", defaultUsername := [],
        defaultPassword := [] } } }

/-- A catalogue of one movie, id 42, rendered by `displayMovies` while the
liked set is empty. -/
def oneCardApp : App :=
  let movie : Movie :=
    { movie_id := 42, movie_name := str "Heat", genre := str "Crime", ratings := 8,
      like_count := none }
  let a := freshApp [] blankDom
  displayMovies { a with state := { a.state with allMovies := [movie] } } [movie]

/-! ## Facts about the string and set primitives -/

theorem includes_iff (s t : JSString) :
    includes s t = true ↔ ∃ pre post, s = pre ++ t ++ post := by
  induction s with
  | nil =>
    simp only [includes, List.isEmpty_iff]
    constructor
    · intro h; exact ⟨[], [], by simp [h]⟩
    · rintro ⟨pre, post, h⟩
      have h' := congrArg List.length h
      simp only [List.length_nil, List.length_append] at h'
      exact List.length_eq_zero.mp (by omega)
  | cons c cs ih =>
    simp only [includes, Bool.or_eq_true, List.isPrefixOf_iff_prefix, ih]
    constructor
    · rintro (⟨post, h⟩ | ⟨pre, post, h⟩)
      · exact ⟨[], post, by simpa using h.symm⟩
      · exact ⟨c :: pre, post, by simp [h]⟩
    · rintro ⟨pre, post, h⟩
      cases pre with
      | nil => exact Or.inl ⟨post, by simpa using h.symm⟩
      | cons p pre =>
        simp only [List.cons_append, List.cons.injEq] at h
        exact Or.inr ⟨pre, post, h.2⟩

theorem mem_setAdd {α : Type} [DecidableEq α] (s : List α) (x y : α) :
    y ∈ setAdd s x ↔ y ∈ s ∨ y = x := by
  unfold setAdd
  split
  · constructor
    · exact Or.inl
    · rintro (h | rfl) <;> assumption
  · simp

theorem nodup_setAdd {α : Type} [DecidableEq α] (s : List α) (x : α) (h : s.Nodup) :
    (setAdd s x).Nodup := by
  unfold setAdd
  split
  · exact h
  · rename_i hx
    refine List.Nodup.append h (List.nodup_singleton x) ?_
    intro y hy hy'
    rw [List.mem_singleton] at hy'
    exact hx (hy' ▸ hy)

theorem mem_setDelete {α : Type} [DecidableEq α] (s : List α) (x y : α) :
    y ∈ setDelete s x ↔ y ∈ s ∧ y ≠ x := by
  simp [setDelete]

theorem foldl_setAdd {α : Type} [DecidableEq α] (xs : List α) :
    ∀ acc : List α, acc.Nodup →
      (xs.foldl setAdd acc).Nodup ∧ ∀ y, y ∈ xs.foldl setAdd acc ↔ y ∈ acc ∨ y ∈ xs := by
  induction xs with
  | nil => intro acc h; simpa using h
  | cons x xs ih =>
    intro acc h
    obtain ⟨h1, h2⟩ := ih (setAdd acc x) (nodup_setAdd acc x h)
    refine ⟨h1, fun y => ?_⟩
    rw [List.foldl_cons, h2, mem_setAdd, List.mem_cons]
    tauto

theorem nodup_setFromArray {α : Type} [DecidableEq α] (xs : List α) :
    (setFromArray xs).Nodup :=
  (foldl_setAdd xs [] List.nodup_nil).1

theorem mem_setFromArray {α : Type} [DecidableEq α] (xs : List α) (y : α) :
    y ∈ setFromArray xs ↔ y ∈ xs := by
  have h := (foldl_setAdd xs [] List.nodup_nil).2 y
  simpa [setFromArray] using h

theorem mem_sort (xs : List JSString) (y : JSString) : y ∈ sort xs ↔ y ∈ xs :=
  List.mem_insertionSort _

theorem sort_strictly_ascending (xs : List JSString) (h : xs.Nodup) :
    (sort xs).Sorted (· < ·) := by
  have hs : (sort xs).Sorted (· ≤ ·) := List.sorted_insertionSort _ xs
  have hn : (sort xs).Nodup := (List.perm_insertionSort _ xs).nodup_iff.mpr h
  exact (List.Sorted.lt_of_le hs hn)

/-! ## Liking a movie -/

theorem updateLikeButton_state (a : App) (movieId : Int) :
    (updateLikeButton a movieId).state = a.state := by
  unfold updateLikeButton
  split
  · rfl
  · split <;> rfl

theorem updateLikeButton_timers (a : App) (movieId : Int) :
    (updateLikeButton a movieId).timers = a.timers := by
  unfold updateLikeButton
  split
  · rfl
  · split <;> rfl

theorem toggleLike_likedMovies_ok (a : App) (m : Int) (message : JSString) :
    (toggleLike a m (.ok message)).state.likedMovies =
      if includes message (str "liked") then setAdd a.state.likedMovies m
      else setDelete a.state.likedMovies m := by
  simp only [toggleLike, updateLikeButton_state]
  split <;> rfl

/-- What the code keeps of the like round trip: after a 2xx response whose message is "liked"
the movie id is in the liked set, and membership of every other id is as
before. -/
theorem toggleLike_liked_message (a : App) (m : Int) :
    m ∈ (toggleLike a m (.ok (str "liked"))).state.likedMovies ∧
    ∀ k, k ≠ m →
      (k ∈ (toggleLike a m (.ok (str "liked"))).state.likedMovies ↔ k ∈ a.state.likedMovies) := by
  have h : includes (str "liked") (str "liked") = true := by decide
  rw [toggleLike_likedMovies_ok, if_pos h]
  refine ⟨(mem_setAdd _ _ _).mpr (Or.inr rfl), fun k hk => ?_⟩
  rw [mem_setAdd]
  tauto

/-- C1: a toggleLike whose request gets a 2xx response with message "unliked"
ends with the movie id IN the liked set, for every liked set and every id:
"unliked" includes "liked", so the branch that adds the id is taken and the
branch that deletes it is never reached for this message. -/
theorem toggleLike_unliked_message_adds (a : App) (m : Int) :
    m ∈ (toggleLike a m (.ok (str "unliked"))).state.likedMovies ∧
    (toggleLike a m (.ok (str "unliked"))).dom.toastText = str "Movie liked! " ++ heartFilled := by
  have h : includes (str "unliked") (str "liked") = true := by decide
  refine ⟨?_, ?_⟩
  · rw [toggleLike_likedMovies_ok, if_pos h]
    exact (mem_setAdd _ _ _).mpr (Or.inr rfl)
  · simp only [toggleLike, if_pos h]
    unfold updateLikeButton
    split
    · rfl
    · split <;> rfl

/-- The like round trip on the code: movie 42, not liked at the start, responses
"liked" then "unliked"; 42 is in the liked set at the end. -/
theorem toggleLike_liked_then_unliked_42 :
    (toggleLikes (freshApp [] blankDom) 42
      [.ok (str "liked"), .ok (str "unliked")]).state.likedMovies = [42] := by
  decide

/-- C7: when the server answers the request of toggleLike with a non-2xx
status, nothing is surfaced: the page (toast included), the script state and
the timers are as before the call; only the request was sent. -/
theorem toggleLike_notOk_silent (a : App) (m : Int) (detail : Option JSString) :
    (toggleLike a m (.notOk detail)).dom = a.dom ∧
    (toggleLike a m (.notOk detail)).state = a.state ∧
    (toggleLike a m (.notOk detail)).timers = a.timers ∧
    (toggleLike a m (.notOk detail)).requests =
      a.requests ++ [Request.like a.state.currentUser m] := by
  simp [toggleLike]

/-- The failure the code does report: when the fetch throws, the
failure toast is shown. -/
theorem toggleLike_threw_toast (a : App) (m : Int) :
    (toggleLike a m .threw).dom.toastText = str "Failed to update like status" ∧
    (toggleLike a m .threw).dom.toastShown = true := by
  simp [toggleLike, showToast]

/-- C10: the card of movie 42 is rendered while 42 is not liked; two toggleLike
calls on 42 each get a 2xx response with message "liked".  After the second
call the button shows the filled heart and 42 is in the liked set, but the
button does not carry the class `liked`: the class is flipped on every call
while the text is recomputed from the set. -/
theorem toggleLike_class_out_of_step :
    (oneCardApp.dom.moviesGrid.map (fun c => (c.btn.liked, c.btn.text))
        = [(false, heartEmpty)]) ∧
    oneCardApp.state.likedMovies = [] ∧
    ((toggleLikes oneCardApp 42 [.ok (str "liked"), .ok (str "liked")]).dom.moviesGrid.map
        (fun c => (c.btn.liked, c.btn.text)) = [(false, heartFilled)]) ∧
    (toggleLikes oneCardApp 42 [.ok (str "liked"), .ok (str "liked")]).state.likedMovies
        = [42] := by
  decide

/-! ## Search and genre filter -/

theorem displayMovies_state (a : App) (movies : List Movie) :
    (displayMovies a movies).state = a.state := rfl

/-- C2: the list filterMovies passes to displayMovies is the movies of
state.allMovies, in their original order and with their multiplicity, that pass
a test which holds of a movie exactly when its lower-cased name contains the
lower-cased search term and the genre filter is empty or equals its genre; the
script state, state.allMovies included, is left unchanged. -/
theorem filterMovies_exact (toLowerCase : JSString → JSString) (a : App) :
    (∃ shown : Movie → Bool,
      (∀ m, shown m = true ↔
        (∃ pre post, toLowerCase m.movie_name = pre ++ toLowerCase a.dom.searchInput ++ post) ∧
        (a.dom.genreFilterValue = [] ∨ m.genre = a.dom.genreFilterValue)) ∧
      filterMovies toLowerCase a = displayMovies a (a.state.allMovies.filter shown)) ∧
    (filterMovies toLowerCase a).state = a.state ∧
    (filterMovies toLowerCase a).state.allMovies = a.state.allMovies := by
  refine ⟨⟨fun movie =>
      includes (toLowerCase movie.movie_name) (toLowerCase a.dom.searchInput) &&
        (!(truthy a.dom.genreFilterValue) || movie.genre == a.dom.genreFilterValue),
      fun m => ?_, rfl⟩, rfl, rfl⟩
  simp only [Bool.and_eq_true, includes_iff, Bool.or_eq_true, truthy, Bool.not_not,
    List.isEmpty_iff, beq_iff_eq]

/-! ## Genre options -/

/-- C3: the option values populateGenreFilter produces are the empty
"All Genres" value first, followed by a list that is strictly ascending in the
lexicographic order of strings (so each value occurs once) and whose members
are exactly the genres of the movies of state.allMovies. -/
theorem populateGenreFilter_options (a : App) :
    ∃ gs : List JSString,
      (populateGenreFilter a).dom.genreOptions.map (fun o => o.value) = [] :: gs ∧
      gs.Sorted (· < ·) ∧ gs.Nodup ∧
      ∀ g, g ∈ gs ↔ ∃ m ∈ a.state.allMovies, m.genre = g := by
  have hs : (genres a.state).Sorted (· < ·) :=
    sort_strictly_ascending _ (nodup_setFromArray _)
  refine ⟨genres a.state, ?_, hs, hs.nodup, fun g => ?_⟩
  · simp [populateGenreFilter, List.map_map, Function.comp_def]
  · simp [genres, mem_sort, mem_setFromArray]

/-! ## Recommendations -/

theorem recommendationsLoop_ok (fetchRecs : Int → Response (List Movie)) (ids : List Int) :
    ∀ a : App, (∀ id ∈ ids, fetchRecs id ≠ Response.threw) →
      recommendationsLoop fetchRecs ids a = .ok
        { a with
          dom := { a.dom with recommendationsContent :=
            a.dom.recommendationsContent ++ ids.filterMap (expectedSection a.state fetchRecs) },
          requests := a.requests ++
            (ids.filter (inCollection a.state)).map Request.recommendations } := by
  induction ids with
  | nil => intro a _; simp [recommendationsLoop]
  | cons id rest ih =>
    intro a h
    have hrest : ∀ id ∈ rest, fetchRecs id ≠ Response.threw :=
      fun i hi => h i (List.mem_cons_of_mem _ hi)
    have hid : fetchRecs id ≠ Response.threw := h id (List.mem_cons_self _ _)
    unfold recommendationsLoop
    cases hf : a.state.allMovies.find? (fun m => decide (m.movie_id = id)) with
    | none =>
      have hin : inCollection a.state id = false := by simp [inCollection, hf]
      have hex : expectedSection a.state fetchRecs id = none := by simp [expectedSection, hf]
      simp only [ih a hrest, List.filterMap_cons, hex, List.filter_cons, hin]
      rfl
    | some movie =>
      have hin : inCollection a.state id = true := by simp [inCollection, hf]
      cases hr : fetchRecs id with
      | threw => exact absurd hr hid
      | notOk d =>
        have hex : expectedSection a.state fetchRecs id = none := by
          simp [expectedSection, hf, hr]
        simp only [ih _ hrest, List.filterMap_cons, hex, List.filter_cons, hin, if_true,
          List.map_cons, List.append_assoc, List.singleton_append]
      | ok recs =>
        by_cases hl : recs = []
        · have hex : expectedSection a.state fetchRecs id = none := by
            simp [expectedSection, hf, hr, hl]
          have hlen : ¬ recs.length > 0 := by simp [hl]
          simp only [hlen, if_false, ih _ hrest, List.filterMap_cons, hex, List.filter_cons,
            hin, if_true, List.map_cons, List.append_assoc, List.singleton_append]
        · have hex : expectedSection a.state fetchRecs id =
              some (recommendationSection a.state movie recs) := by
            simp [expectedSection, hf, hr, hl]
          have hlen : recs.length > 0 := List.length_pos.mpr hl
          simp only [hlen, if_true, ih _ hrest, List.filterMap_cons, hex, List.filter_cons,
            hin, List.map_cons, List.append_assoc, List.singleton_append]

/-- C4: for a non-empty liked set and a server none of whose answers to the
liked ids throws, the recommendations container ends up holding exactly, in the
liked set's insertion order, the section of each liked id that is found in
state.allMovies by movie_id and gets a 2xx response with a non-empty list,
titled with the name of the movie found; the requests sent are one per liked id
found in state.allMovies, in that order, and no others; the busy indicator is
hidden again and no toast is raised. -/
theorem loadRecommendations_sections (a : App) (fetchRecs : Int → Response (List Movie))
    (hne : a.state.likedMovies ≠ [])
    (hok : ∀ id ∈ a.state.likedMovies, fetchRecs id ≠ Response.threw) :
    (loadRecommendations a fetchRecs).dom.recommendationsContent =
        a.state.likedMovies.filterMap (expectedSection a.state fetchRecs) ∧
    (loadRecommendations a fetchRecs).requests =
        a.requests ++
          (a.state.likedMovies.filter (inCollection a.state)).map Request.recommendations ∧
    (loadRecommendations a fetchRecs).dom.loadingHidden = true ∧
    (loadRecommendations a fetchRecs).dom.toastText = a.dom.toastText ∧
    (loadRecommendations a fetchRecs).dom.toastShown = a.dom.toastShown ∧
    (loadRecommendations a fetchRecs).timers = a.timers ∧
    (loadRecommendations a fetchRecs).state = a.state := by
  have hlen : ¬ a.state.likedMovies.length = 0 := by
    simpa [List.length_eq_zero] using hne
  unfold loadRecommendations
  rw [if_neg hlen]
  simp only [showLoading]
  rw [recommendationsLoop_ok fetchRecs _ _ hok]
  simp [hideLoading]

/-- C9: when the liked set is empty, loadRecommendations sets the
recommendations container to exactly one node, the empty-state message with
heading "No Recommendations Yet" and text "Like some movies to get personalized
recommendations!", and changes nothing else: no request is added, the busy
indicator and the toast are as before, no timer is set, the script state and
the store are untouched. -/
theorem loadRecommendations_empty (a : App) (fetchRecs : Int → Response (List Movie))
    (h : a.state.likedMovies = []) :
    (loadRecommendations a fetchRecs).dom.recommendationsContent =
      [RecNode.emptyState (str "No Recommendations Yet")
        (str "Like some movies to get personalized recommendations!")] ∧
    (loadRecommendations a fetchRecs).requests = a.requests ∧
    (loadRecommendations a fetchRecs).dom.loadingHidden = a.dom.loadingHidden ∧
    (loadRecommendations a fetchRecs).dom.toastText = a.dom.toastText ∧
    (loadRecommendations a fetchRecs).dom.toastShown = a.dom.toastShown ∧
    (loadRecommendations a fetchRecs).timers = a.timers ∧
    (loadRecommendations a fetchRecs).state = a.state ∧
    (loadRecommendations a fetchRecs).store = a.store ∧
    loadRecommendations a fetchRecs =
      { a with dom := { a.dom with recommendationsContent :=
          [RecNode.emptyState (str "No Recommendations Yet")
            (str "Like some movies to get personalized recommendations!")] } } := by
  simp [loadRecommendations, h, emptyRecommendations]

/-- Witness of C4: liked ids 42, 7, 9 over a catalogue without movie 7, the
service answering 42 with one recommendation and 9 with a non-2xx status. -/
theorem loadRecommendations_sections_witness :
    (loadRecommendations likedApp sampleRecs).dom.recommendationsContent =
      [RecNode.recSection (str "Because you liked \"Heat\"")
        [{ title := str "Ran", genre := str "Drama", rating := 8, likeCount := some 3,
           btn := { liked := true, movieId := 9, text := heartFilled, clickListeners := 0 } }]] ∧
    (loadRecommendations likedApp sampleRecs).requests =
      [Request.recommendations 42, Request.recommendations 9] := by
  have h := loadRecommendations_sections likedApp sampleRecs (by decide) (by decide)
  refine ⟨h.1.trans (by decide), h.2.1.trans (by decide)⟩

/-- Witness of C9: the application right after load, whose liked set is empty;
the container holds the one empty-state node, spelled out in code units of its
heading, and nothing was requested, shown as busy or toasted. -/
theorem loadRecommendations_empty_witness :
    (loadRecommendations (freshApp [] blankDom) sampleRecs).dom.recommendationsContent =
      [RecNode.emptyState (str "No Recommendations Yet")
        (str "Like some movies to get personalized recommendations!")] ∧
    (loadRecommendations (freshApp [] blankDom) sampleRecs).dom.recommendationsContent.length
      = 1 ∧
    str "No Recommendations Yet" =
      [78, 111, 32, 82, 101, 99, 111, 109, 109, 101, 110, 100, 97, 116, 105, 111, 110, 115,
       32, 89, 101, 116] ∧
    (loadRecommendations (freshApp [] blankDom) sampleRecs).requests = [] ∧
    (loadRecommendations (freshApp [] blankDom) sampleRecs).dom.loadingHidden = true ∧
    (loadRecommendations (freshApp [] blankDom) sampleRecs).dom.toastShown = false := by
  have h := loadRecommendations_empty (freshApp [] blankDom) sampleRecs rfl
  exact ⟨h.1, by rw [h.1]; rfl, by decide, h.2.1, h.2.2.1, h.2.2.2.2.1⟩

/-! ## Registration -/

/-- C8: when the username of the register form is empty after trimming or the
password is empty, handleRegister shows "Please fill in all fields" as an error
in the inline message area and does nothing else: no request is sent, the
script state and the persistent store are unchanged. -/
theorem handleRegister_validation (a : App) (resp : Response Unit)
    (h : trim a.dom.registerForm.username = [] ∨ a.dom.registerForm.password = []) :
    (handleRegister a resp).dom.authMessageText = str "Please fill in all fields" ∧
    (handleRegister a resp).dom.authMessageClass = str "message error" ∧
    (handleRegister a resp).requests = a.requests ∧
    (handleRegister a resp).state = a.state ∧
    (handleRegister a resp).store = a.store ∧
    handleRegister a resp = showMessage a (str "Please fill in all fields") (str "error") := by
  have hc : (!(truthy (trim a.dom.registerForm.username)) ||
      !(truthy a.dom.registerForm.password)) = true := by
    rcases h with h | h <;> simp [truthy, h]
  have he : handleRegister a resp =
      showMessage a (str "Please fill in all fields") (str "error") := by
    unfold handleRegister
    simp only [hc, if_true]
  rw [he]
  have hcls : str "message " ++ str "error" = str "message error" := by decide
  exact ⟨rfl, hcls, rfl, rfl, rfl, rfl⟩

/-- Witness of C8: a username of two blanks with a non-empty password. -/
theorem handleRegister_validation_witness :
    (handleRegister blankUsernameApp (.ok ())).dom.authMessageText =
      str "Please fill in all fields" ∧
    (handleRegister blankUsernameApp (.ok ())).requests = [] :=
  ⟨(handleRegister_validation blankUsernameApp (.ok ()) (Or.inl (by decide))).1,
   (handleRegister_validation blankUsernameApp (.ok ()) (Or.inl (by decide))).2.2.1⟩

/-! ## Session: start-up and logout -/

theorem truthyOpt_iff (v : Option JSString) :
    truthyOpt v = true ↔ ∃ s, v = some s ∧ s ≠ [] := by
  cases v with
  | none => simp [truthyOpt]
  | some s => cases s <;> simp [truthyOpt, truthy]

theorem getItem_removeItem_self (s : Store) (k : JSString) :
    getItem (removeItem s k) k = none := by
  simp [getItem, removeItem, List.find?_eq_none]

theorem getItem_removeItem_of_none (s : Store) (k k' : JSString) (h : getItem s k = none) :
    getItem (removeItem s k') k = none := by
  simp only [getItem, Option.map_eq_none', List.find?_eq_none] at h ⊢
  intro kv hkv
  exact h kv (List.mem_filter.mp hkv).1

theorem loadMovies_session (a : App) (resp : Response (List Movie)) :
    (loadMovies a resp).state.isAuthenticated = a.state.isAuthenticated ∧
    (loadMovies a resp).state.currentUser = a.state.currentUser ∧
    (loadMovies a resp).state.token = a.state.token ∧
    (loadMovies a resp).dom.authViewHidden = a.dom.authViewHidden ∧
    (loadMovies a resp).dom.mainAppHidden = a.dom.mainAppHidden ∧
    (loadMovies a resp).requests = a.requests ++ [Request.movies] ∧
    (loadMovies a resp).store = a.store := by
  cases resp <;> simp [loadMovies, showLoading, hideLoading, showToast, populateGenreFilter,
    displayMovies]

/-- C5, as the code has it: started from an unauthenticated state, checkAuth
ends authenticated if and only if both `username` and `access_token` are in
the store with non-empty values.  In that case currentUser and token are the
stored values, the main app is shown, the auth view hidden, and the one request
sent is the movie list (it does not carry the token).  Otherwise the script
state is unchanged, the auth view is shown, the main app hidden and no request
is sent. -/
theorem checkAuth_authenticated_iff (a : App) (resp : Response (List Movie))
    (h : a.state.isAuthenticated = false) :
    ((checkAuth a resp).state.isAuthenticated = true ↔
      ∃ u t, getItem a.store (str "username") = some u ∧ u ≠ [] ∧
        getItem a.store (str "access_token") = some t ∧ t ≠ []) ∧
    (∀ u t, getItem a.store (str "username") = some u → u ≠ [] →
        getItem a.store (str "access_token") = some t → t ≠ [] →
      (checkAuth a resp).state.isAuthenticated = true ∧
      (checkAuth a resp).state.currentUser = some u ∧
      (checkAuth a resp).state.token = some t ∧
      (checkAuth a resp).dom.mainAppHidden = false ∧
      (checkAuth a resp).dom.authViewHidden = true ∧
      (checkAuth a resp).requests = a.requests ++ [Request.movies]) ∧
    ((¬ ∃ u t, getItem a.store (str "username") = some u ∧ u ≠ [] ∧
        getItem a.store (str "access_token") = some t ∧ t ≠ []) →
      (checkAuth a resp).state = a.state ∧
      (checkAuth a resp).dom.authViewHidden = false ∧
      (checkAuth a resp).dom.mainAppHidden = true ∧
      (checkAuth a resp).requests = a.requests) := by
  have hcond : (truthyOpt (getItem a.store (str "username")) &&
        truthyOpt (getItem a.store (str "access_token"))) = true ↔
      ∃ u t, getItem a.store (str "username") = some u ∧ u ≠ [] ∧
        getItem a.store (str "access_token") = some t ∧ t ≠ [] := by
    rw [Bool.and_eq_true, truthyOpt_iff, truthyOpt_iff]
    constructor
    · rintro ⟨⟨u, hu, hu'⟩, ⟨t, ht, ht'⟩⟩
      exact ⟨u, t, hu, hu', ht, ht'⟩
    · rintro ⟨u, t, hu, hu', ht, ht'⟩
      exact ⟨⟨u, hu, hu'⟩, ⟨t, ht, ht'⟩⟩
  have hyes : (truthyOpt (getItem a.store (str "username")) &&
        truthyOpt (getItem a.store (str "access_token"))) = true →
      (checkAuth a resp).state.isAuthenticated = true ∧
      (checkAuth a resp).state.currentUser = getItem a.store (str "username") ∧
      (checkAuth a resp).state.token = getItem a.store (str "access_token") ∧
      (checkAuth a resp).dom.mainAppHidden = false ∧
      (checkAuth a resp).dom.authViewHidden = true ∧
      (checkAuth a resp).requests = a.requests ++ [Request.movies] := by
    intro hc
    unfold checkAuth
    simp only [hc, if_true, showMainApp]
    refine ⟨?_, ?_, ?_, ?_, ?_, ?_⟩
    · rw [(loadMovies_session _ resp).1]
    · rw [(loadMovies_session _ resp).2.1]
    · rw [(loadMovies_session _ resp).2.2.1]
    · rw [(loadMovies_session _ resp).2.2.2.2.1]
    · rw [(loadMovies_session _ resp).2.2.2.1]
    · rw [(loadMovies_session _ resp).2.2.2.2.2.1]
  have hno : ¬ (truthyOpt (getItem a.store (str "username")) &&
        truthyOpt (getItem a.store (str "access_token"))) = true →
      checkAuth a resp = showAuthView a := by
    intro hc
    unfold checkAuth
    simp only [hc, if_false]
    rfl
  refine ⟨⟨fun hauth => ?_, fun hex => (hyes (hcond.mpr hex)).1⟩, ?_, ?_⟩
  · by_contra hex
    rw [hno (fun hc => hex (hcond.mp hc))] at hauth
    simp [showAuthView, h] at hauth
  · intro u t hu hu' ht ht'
    have hy := hyes (hcond.mpr ⟨u, t, hu, hu', ht, ht'⟩)
    rw [hu, ht] at hy
    exact hy
  · intro hex
    rw [hno (fun hc => hex (hcond.mp hc))]
    exact ⟨rfl, rfl, rfl, rfl⟩

/-- Witness of C5: the store holds the session of alice; the page starts from
the initial state. -/
theorem checkAuth_authenticated_iff_witness :
    (checkAuth (freshApp aliceStore blankDom) (.ok [])).state.isAuthenticated = true ∧
    (checkAuth (freshApp aliceStore blankDom) (.ok [])).state.currentUser = some (str "alice") ∧
    (checkAuth (freshApp aliceStore blankDom) (.ok [])).state.token = some (str "tok1") ∧
    (checkAuth (freshApp aliceStore blankDom) (.ok [])).requests = [Request.movies] := by
  have h := (checkAuth_authenticated_iff (freshApp aliceStore blankDom) (.ok []) rfl).2.1
    (str "alice") (str "tok1") (by decide) (by decide) (by decide) (by decide)
  exact ⟨h.1, h.2.1, h.2.2.1, h.2.2.2.2.2⟩

/-- C5 as stated fails: both keys are present in the store, `access_token` with
the empty string as its value, and checkAuth shows the auth view and leaves the
state unauthenticated. -/
theorem checkAuth_present_but_empty :
    (getItem emptyTokenStore (str "username")).isSome = true ∧
    (getItem emptyTokenStore (str "access_token")).isSome = true ∧
    (checkAuth (freshApp emptyTokenStore blankDom) (.ok [])).state.isAuthenticated = false ∧
    (checkAuth (freshApp emptyTokenStore blankDom) (.ok [])).dom.authViewHidden = false ∧
    (checkAuth (freshApp emptyTokenStore blankDom) (.ok [])).dom.mainAppHidden = true := by
  decide

/-- C6: after handleLogout the state has isAuthenticated false, currentUser
and token null and an empty liked set, and the store holds neither `username`
nor `access_token`; checkAuth run on any page over the resulting store shows the
auth view, keeps the main app hidden, sends no request and leaves the state of
that page as it was loaded. -/
theorem handleLogout_clears (a : App) :
    (handleLogout a).state.isAuthenticated = false ∧
    (handleLogout a).state.currentUser = none ∧
    (handleLogout a).state.token = none ∧
    (handleLogout a).state.likedMovies = [] ∧
    getItem (handleLogout a).store (str "username") = none ∧
    getItem (handleLogout a).store (str "access_token") = none ∧
    ∀ (page : App) (resp : Response (List Movie)),
      (checkAuth { page with store := (handleLogout a).store } resp).dom.authViewHidden = false ∧
      (checkAuth { page with store := (handleLogout a).store } resp).dom.mainAppHidden = true ∧
      (checkAuth { page with store := (handleLogout a).store } resp).state = page.state ∧
      (checkAuth { page with store := (handleLogout a).store } resp).requests = page.requests := by
  have hstore : (handleLogout a).store =
      removeItem (removeItem a.store (str "username")) (str "access_token") := rfl
  have hu : getItem (handleLogout a).store (str "username") = none := by
    rw [hstore]
    exact getItem_removeItem_of_none _ _ _ (getItem_removeItem_self _ _)
  have ht : getItem (handleLogout a).store (str "access_token") = none := by
    rw [hstore]
    exact getItem_removeItem_self _ _
  refine ⟨rfl, rfl, rfl, rfl, hu, ht, fun page resp => ?_⟩
  have hc : checkAuth { page with store := (handleLogout a).store } resp =
      showAuthView { page with store := (handleLogout a).store } := by
    unfold checkAuth
    simp only [hu, ht, truthyOpt, Bool.and_self, Bool.false_eq_true, if_false]
  rw [hc]
  exact ⟨rfl, rfl, rfl, rfl⟩

end MovieDec
